import Mathlib

/-!
Verification of the `simpleauth` grants subsystem and token issuance.

The Go package `pkg/grants` represents an access grant as a `uint32` bit set
(`type Grant uint32`), keeps a mutable name table `GrantStrings` mapping
grants to names, and offers parsing (`ToGrant`), canonicalization (`Clean`),
rendering (`String`, `Short`), custom-grant registration (`SetCustomGrants`,
`GetCustomGrant`, `IsCustomGrantsSet`) and request authorization
(`ContainsGrant`).  The controller (`pkg/controller`) issues access and
refresh tokens (`GenerateTokens`, `Login`).

Embedding notes:
* `Grant` is `Nat`; all bit operations (`&&&`, `|||`, `^^^`, `<<<`) agree
  with `uint32` semantics on values below `2 ^ 32`, and every mask used by
  the code is below `2 ^ 32`.
* The built-in entries of the Go map `GrantStrings` are never deleted or
  overwritten by the package (only keys inside `GrantSectionCustom` are ever
  removed or inserted), so the registry state is modelled as the list of
  custom-section entries `Registry`; the full table is `baseGrantStrings ++
  reg`.  Go map iteration order is unspecified, but every iteration in the
  package either OR-accumulates (order-irrelevant) or selects by a key or
  name that is unique in reachable states, so a fixed list order is a sound
  deterministic model.
* The Go string library helpers (`strings.Split`, `strings.TrimSpace`,
  `strings.EqualFold`, `strings.Join`) are given structurally recursive
  implementations (`splitComma`, `trimSpace`, `eqFold`, `joinDelim`) that
  agree with them on the inputs the package uses (the delimiter is always
  the one-character string `","`, and the names are ASCII).
* JWT signing is an external collaborator (`simplejwt`); a token is modelled
  by its claim set, and signing is modelled as always succeeding.
-/

namespace SimpleAuth

namespace Grants

/-- Go: `type Grant uint32`. -/
abbrev Grant := Nat

def GrantDelimiter : String := ","

def MaxCustomGrants : Nat := 8

def GrantSectionOTP : Grant := 0x000000FE
def GrantSectionUsers : Grant := 0x0000FF00
def GrantSectionCustom : Grant := 0x00FF0000
def GrantSectionReserved : Grant := 0xFF000000

def GrantUnknown : Grant := 0x0000
def GrantNone : Grant := 0x0001

def GrantSetOTP : Grant := 0x0002
def GrantOTPValidate : Grant := 0x0004
def GrantOTPQR : Grant := 0x0008
def GrantOTP : Grant := 0x0002 ||| 0x0004 ||| 0x0008

def GrantUsersRefresh : Grant := 0x0100

def GrantAuthenticated : Grant := 0x0002 ||| 0x0004 ||| 0x0008 ||| 0x0100

def GrantFull : Grant := 0xFFFFFFFE
def GrantMax : Grant := 0xFFFFFFFF

/-- The mutable custom-section slice of the Go map `GrantStrings`: the
entries whose keys lie inside `GrantSectionCustom`.  The built-in entries
are fixed (`baseGrantStrings`). -/
abbrev Registry := List (Grant × String)

/-- The built-in entries of `GrantStrings` as initialized in `grant.go`. -/
def baseGrantStrings : List (Grant × String) :=
  [(GrantUnknown, "unknown"),
   (GrantNone, "none"),
   (GrantSetOTP, "otp"),
   (GrantOTPValidate, "otp-validate"),
   (GrantOTPQR, "otp-qr"),
   (GrantUsersRefresh, "users-refresh"),
   (GrantOTP, "otp-all"),
   (GrantAuthenticated, "authenticated")]

/-- The full name table `GrantStrings` at registry state `reg`. -/
def grantStrings (reg : Registry) : List (Grant × String) :=
  baseGrantStrings ++ reg

/-- Go `strings.Split` restricted to a one-character separator (the
package only splits on `GrantDelimiter = ","`), implemented by structural
recursion over the characters so that proofs can evaluate it. -/
def splitChar (sep : Char) : List Char → List Char → List String
  | [], cur => [String.mk cur.reverse]
  | c :: cs, cur =>
    if c == sep then String.mk cur.reverse :: splitChar sep cs []
    else splitChar sep cs (c :: cur)

/-- `strings.Split(s, ",")`. -/
def splitComma (s : String) : List String :=
  splitChar ',' s.data []

/-- Go `strings.TrimSpace`: drop leading and trailing whitespace. -/
def trimSpace (s : String) : String :=
  String.mk (((s.data.dropWhile Char.isWhitespace).reverse.dropWhile
    Char.isWhitespace).reverse)

/-- Go `strings.Join`. -/
def joinDelim (sep : String) : List String → String
  | [] => ""
  | [x] => x
  | x :: y :: xs => x ++ sep ++ joinDelim sep (y :: xs)

/-- Lower-case image of a string, character by character. -/
def lowerStr (s : String) : String :=
  String.mk (s.data.map Char.toLower)

/-- Go `strings.EqualFold`, on the ASCII names used by the package. -/
def eqFold (a b : String) : Bool :=
  lowerStr a == lowerStr b

/-- The inner loop of `ToGrant`: find a table entry whose name matches the
segment case-insensitively, returning its grant. -/
def lookupFold (reg : Registry) (p : String) : Option Grant :=
  (grantStrings reg).findSome? fun kv => if eqFold p kv.2 then some kv.1 else none

/-- The loop of Go `ToGrant` over the comma-separated segments: OR the
matched bits together, or stop at the first unrecognized segment returning
`GrantUnknown` together with the error message naming that segment. -/
def toGrantGo (reg : Registry) (acc : Grant) : List String → Grant × Option String
  | [] => (acc, none)
  | p :: rest =>
    let q := trimSpace p
    match lookupFold reg q with
    | some k => toGrantGo reg (acc ||| k) rest
    | none => (GrantUnknown, some ("Unknown grant \x27" ++ q ++ "\x27"))

/-- Go `ToGrant`: parse a comma-separated grant string.  The second
component is the error (`none` on success); on error the first component is
`GrantUnknown`, exactly as the Go function returns both values. -/
def toGrant (reg : Registry) (s : String) : Grant × Option String :=
  toGrantGo reg 0 (splitComma s)

/-- The errors `ContainsGrant` can return: `middleware.ErrGrantDataType`
(grant claim absent or not a string), a `ToGrant` parse error, and
`ErrRequestGrant`. -/
inductive AuthzError
  | grantDataType
  | unknownGrant (msg : String)
  | requestGrant
deriving DecidableEq, Repr

/-- Go `ContainsGrant`: the request's grant claim is modelled as
`Option String` (`none` when the context value is absent or not a string).
Returns `none` on success, mirroring the Go `nil` error. -/
def containsGrant (reg : Registry) (grant : Grant) (claimVal : Option String) :
    Option AuthzError :=
  match claimVal with
  | none => some .grantDataType
  | some s =>
    match toGrant reg s with
    | (_, some msg) => some (.unknownGrant msg)
    | (reqGrant, none) =>
      if (reqGrant &&& grant) != grant then some .requestGrant else none

/-- The loop body of Go `GetCustomGrant`: a custom-section entry is ORed
into the accumulator, subject to the case-insensitive name filter when one
was given. -/
def gcgStep (filter : List String) (acc : Grant) (kv : Grant × String) : Grant :=
  if kv.1 &&& GrantSectionCustom > 0 then
    if filter.length > 0 then
      if filter.any (fun g => eqFold kv.2 g) then acc ||| kv.1 else acc
    else acc ||| kv.1
  else acc

/-- Go `GetCustomGrant`: union of the custom-section keys, optionally
limited to those whose name matches the filter case-insensitively. -/
def getCustomGrant (reg : Registry) (filter : List String) : Grant :=
  (grantStrings reg).foldl (gcgStep filter) GrantUnknown

/-- Go `IsCustomGrantsSet`. -/
def isCustomGrantsSet (reg : Registry) : Bool :=
  (getCustomGrant reg [] &&& GrantSectionCustom) != GrantUnknown

/-- The assignment loop of `SetCustomGrants`: a name is assigned the next
custom bit exactly when `ToGrant` (against the table built so far) returns
`GrantUnknown`; assigned entries are inserted into the table and consume a
bit slot. -/
def setCustomGrantsGo (kept : Registry) (i : Nat) : List String → Registry
  | [] => kept
  | g :: rest =>
    if (toGrant kept g).1 == GrantUnknown then
      let j := i + 1
      let v : Grant := (1 <<< (15 + j)) &&& GrantSectionCustom
      setCustomGrantsGo (kept ++ [(v, g)]) j rest
    else setCustomGrantsGo kept i rest

/-- Go `SetCustomGrants`: fail when more than `MaxCustomGrants` names are
given, else delete every custom-section entry and run the assignment loop. -/
def setCustomGrants (reg : Registry) (grants : List String) : Except String Registry :=
  if grants.length > MaxCustomGrants then
    .error (toString grants.length ++ " exceeds max allowable length of "
      ++ toString MaxCustomGrants ++ "\n")
  else
    .ok (setCustomGrantsGo (reg.filter fun kv => !(kv.1 &&& GrantSectionCustom > 0)) 0 grants)

/-- Go `Grant.Clean`. -/
def clean (reg : Registry) (g : Grant) : Grant :=
  if (g &&& GrantNone) == GrantNone then GrantNone
  else
    let filter :=
      if isCustomGrantsSet reg then GrantAuthenticated ||| GrantSectionCustom
      else GrantAuthenticated
    g &&& filter

/-- The bit-scan loop of Go `Grant.String`: walk bits 0 through 31 and
collect the names of recognized set bits. -/
def grantStringBits (reg : Registry) (g : Grant) : List String :=
  (List.range 32).foldl
    (fun grants i =>
      let v := (1 <<< i) &&& g
      if v == GrantNone then
        grants ++ [(List.lookup GrantNone (grantStrings reg)).getD ""]
      else if v == GrantSetOTP then
        grants ++ [(List.lookup GrantSetOTP (grantStrings reg)).getD ""]
      else if v == GrantOTPValidate then
        grants ++ [(List.lookup GrantOTPValidate (grantStrings reg)).getD ""]
      else if v == GrantOTPQR then
        grants ++ [(List.lookup GrantOTPQR (grantStrings reg)).getD ""]
      else if v == GrantUsersRefresh then
        grants ++ [(List.lookup GrantUsersRefresh (grantStrings reg)).getD ""]
      else if v &&& GrantSectionCustom > 0 then
        match List.lookup v (grantStrings reg) with
        | some s => grants ++ [s]
        | none => grants
      else grants)
    []

/-- Go `Grant.String`: the comma-separated names of the set recognized
bits, or the name of `GrantUnknown` when none are recognized. -/
def grantString (reg : Registry) (g : Grant) : String :=
  let grants := grantStringBits reg g
  if grants.length == 0 then (List.lookup GrantUnknown (grantStrings reg)).getD ""
  else joinDelim GrantDelimiter grants

/-- Go `Grant.Short`: the short name of the non-custom part when the table
has one, with the custom part rendered by `String` appended. -/
def short (reg : Registry) (g : Grant) : String :=
  let mask := (GrantMax ^^^ GrantSectionCustom) &&& (GrantMax ^^^ GrantSectionReserved)
  let grant := g &&& mask
  let s :=
    match List.lookup grant (grantStrings reg) with
    | some s => s
    | none => grantString reg grant
  let customGrant := g &&& GrantSectionCustom
  if customGrant != GrantUnknown then
    let other := grantString reg customGrant
    if other != "" then
      if grant == GrantUnknown then other
      else joinDelim GrantDelimiter [s, other]
    else s
  else s

/-- Well-formedness of a registry state: every key is a pure
custom-section bit pattern.  Every state reachable through
`SetCustomGrants` satisfies this, since assigned keys are
`(1 <<< shift) &&& GrantSectionCustom` with `16 ≤ shift ≤ 23`. -/
def ValidRegistry (reg : Registry) : Prop :=
  ∀ kv ∈ reg, kv.1 &&& GrantSectionCustom = kv.1

end Grants

namespace Controller

open Grants

/-- `time.Duration` values (nanoseconds) from `pkg/controller/utils.go`. -/
def AccessTokenExpiration : Int := 3600 * 1000000000

def RefreshTokenExpiration : Int := 86400 * 1000000000

def TransactionTokenExpiration : Int := 300 * 1000000000

/-- The fields of `models.User` that `GenerateTokens` and `Login` read. -/
structure User where
  email : String
  username : String
  userId : String
  userType : String
  totpEnabled : Bool
deriving DecidableEq, Repr

/-- Go `TokenOptions`. -/
structure TokenOptions where
  grant : Grant
  ttl : Int
  refreshTTL : Int
  skipRefresh : Bool
deriving DecidableEq, Repr

/-- The claim set `GenerateTokens` embeds in the access token. -/
structure AccessClaims where
  email : String
  username : String
  userId : String
  userType : String
  exp : Int
  grant : String
deriving DecidableEq, Repr

/-- The claim set `GenerateTokens` embeds in the refresh token. -/
structure RefreshClaims where
  userId : String
  exp : Int
  grant : String
deriving DecidableEq, Repr

/-- Go `GenerateTokens`, modelled at the claim level: the returned pair is
the access-token claim set and the refresh-token claim set (`none` exactly
when the refresh token is skipped and returned as `""`).  `now` is the
current Unix time; signing is modelled as always succeeding. -/
def generateTokens (reg : Registry) (user : User) (options : Option TokenOptions)
    (now : Int) : AccessClaims × Option RefreshClaims :=
  let grant0 :=
    if isCustomGrantsSet reg then GrantAuthenticated ||| getCustomGrant reg []
    else GrantAuthenticated
  let grant :=
    match options with
    | some o => if o.grant != GrantUnknown then o.grant else grant0
    | none => grant0
  let ttl :=
    match options with
    | some o => if o.ttl > 0 then o.ttl else AccessTokenExpiration
    | none => AccessTokenExpiration
  let refreshTtl :=
    match options with
    | some o => if o.refreshTTL > 0 then o.refreshTTL else RefreshTokenExpiration
    | none => RefreshTokenExpiration
  let access : AccessClaims :=
    { email := user.email
      username := user.username
      userId := user.userId
      userType := user.userType
      exp := now + ttl
      grant := short reg (clean reg grant) }
  let refresh : Option RefreshClaims :=
    match options with
    | some o =>
      if o.skipRefresh then none
      else some { userId := user.userId, exp := now + refreshTtl,
                  grant := grantString reg GrantUsersRefresh }
    | none =>
      some { userId := user.userId, exp := now + refreshTtl,
             grant := grantString reg GrantUsersRefresh }
  (access, refresh)

/-- The token-issuance step of `controller.Login`, after the user lookup
and password check have succeeded: build `TokenOptions` from
`foundUser.TotpEnabled` and call `GenerateTokens`. -/
def loginTokens (reg : Registry) (foundUser : User) (now : Int) :
    AccessClaims × Option RefreshClaims :=
  let options : TokenOptions :=
    if foundUser.totpEnabled then
      { grant := GrantOTPValidate, ttl := TransactionTokenExpiration,
        refreshTTL := 0, skipRefresh := true }
    else
      { grant := GrantUnknown, ttl := 0, refreshTTL := 0, skipRefresh := false }
  generateTokens reg foundUser (some options) now

end Controller

/-! ### Bitwise helper lemmas -/

namespace Grants

lemma testBit_of_and_eq {a c : Nat} (h : a &&& c = a) (i : Nat) :
    (a.testBit i && c.testBit i) = a.testBit i := by
  have := congrArg (fun x => Nat.testBit x i) h
  simp only [Nat.testBit_and] at this
  exact this

lemma subset_or_or {a c k : Nat} (h : a &&& c = a) :
    (a ||| k) &&& (c ||| k) = a ||| k := by
  apply Nat.eq_of_testBit_eq
  intro i
  have hb := testBit_of_and_eq h i
  simp only [Nat.testBit_and, Nat.testBit_or]
  cases ha : a.testBit i <;> cases hc : c.testBit i <;> cases hk : k.testBit i <;>
    simp_all

lemma subset_or_right {a c k : Nat} (h : a &&& c = a) : a &&& (c ||| k) = a := by
  apply Nat.eq_of_testBit_eq
  intro i
  have hb := testBit_of_and_eq h i
  simp only [Nat.testBit_and, Nat.testBit_or]
  cases ha : a.testBit i <;> cases hc : c.testBit i <;> cases hk : k.testBit i <;>
    simp_all

lemma and_and_mask_zero {f m : Nat} (h : f &&& m = 0) (g : Nat) :
    (g &&& f) &&& m = 0 := by
  rw [Nat.and_assoc, h, Nat.and_zero]

lemma and_mask_absorb_left (g f : Nat) : (g &&& f) &&& g = g &&& f := by
  rw [Nat.and_comm g f, Nat.and_assoc, Nat.and_self]

lemma and_mask_absorb (g f : Nat) : (g &&& f) &&& f = g &&& f := by
  rw [Nat.and_assoc, Nat.and_self]

lemma or_and_distrib (a b m : Nat) : (a ||| b) &&& m = (a &&& m) ||| (b &&& m) := by
  apply Nat.eq_of_testBit_eq
  intro i
  simp only [Nat.testBit_and, Nat.testBit_or]
  cases a.testBit i <;> cases b.testBit i <;> cases m.testBit i <;> rfl

/-! ### Basic reductions of `clean` -/

lemma clean_of_none {g : Grant} (reg : Registry) (h : g &&& GrantNone = GrantNone) :
    clean reg g = GrantNone := by
  simp [clean, h]

lemma clean_of_not_none {g : Grant} (reg : Registry) (h : ¬g &&& GrantNone = GrantNone) :
    clean reg g =
      g &&& (if isCustomGrantsSet reg then GrantAuthenticated ||| GrantSectionCustom
             else GrantAuthenticated) := by
  simp [clean, h]

lemma clean_filter_none (reg : Registry) :
    (if isCustomGrantsSet reg then GrantAuthenticated ||| GrantSectionCustom
     else GrantAuthenticated) &&& GrantNone = 0 := by
  cases isCustomGrantsSet reg <;> simp <;> rfl

lemma clean_filter_reserved (reg : Registry) :
    (if isCustomGrantsSet reg then GrantAuthenticated ||| GrantSectionCustom
     else GrantAuthenticated) &&& GrantSectionReserved = 0 := by
  cases isCustomGrantsSet reg <;> simp <;> rfl

/-! ### The custom-grant union is confined to the custom section -/

lemma gcg_fold_custom :
    ∀ (l : List (Grant × String)) (acc : Grant),
      (∀ kv ∈ l, kv.1 &&& GrantSectionCustom = kv.1) →
      acc &&& GrantSectionCustom = acc →
      (List.foldl (gcgStep []) acc l) &&& GrantSectionCustom =
        List.foldl (gcgStep []) acc l := by
  intro l
  induction l with
  | nil => intro acc _ hacc; simpa using hacc
  | cons kv t ih =>
    intro acc hl hacc
    simp only [List.foldl_cons]
    apply ih _ (fun x hx => hl x (List.mem_cons_of_mem kv hx))
    have hkv := hl kv (List.mem_cons_self kv t)
    unfold gcgStep
    by_cases hc : kv.1 &&& GrantSectionCustom > 0
    · simp only [hc, if_pos, List.length_nil, Nat.lt_irrefl, if_false]
      rw [or_and_distrib, hacc, hkv]
    · simp only [hc, if_neg, if_false]
      exact hacc

lemma gcg_custom (reg : Registry) (hv : ValidRegistry reg) :
    getCustomGrant reg [] &&& GrantSectionCustom = getCustomGrant reg [] := by
  unfold getCustomGrant grantStrings
  rw [List.foldl_append]
  exact gcg_fold_custom reg _ hv rfl

lemma gcg_zero_of_not_set (reg : Registry) (hv : ValidRegistry reg)
    (hset : isCustomGrantsSet reg = false) : getCustomGrant reg [] = 0 := by
  have h0 : getCustomGrant reg [] &&& GrantSectionCustom = 0 := by
    simpa [isCustomGrantsSet, GrantUnknown] using hset
  rw [← gcg_custom reg hv, h0]

/-- The effective default grant of `GenerateTokens` is a fixed point of
`Clean` on any well-formed registry. -/
lemma clean_default_grant (reg : Registry) (hv : ValidRegistry reg) :
    clean reg (if isCustomGrantsSet reg then
      GrantAuthenticated ||| getCustomGrant reg [] else GrantAuthenticated) =
    GrantAuthenticated ||| getCustomGrant reg [] := by
  have hcg := gcg_custom reg hv
  cases hset : isCustomGrantsSet reg
  · rw [gcg_zero_of_not_set reg hv hset]
    simp only [if_false, Nat.or_zero]
    rw [clean_of_not_none reg (by decide), hset]
    rfl
  · simp only [if_true]
    have hbit0 : ¬(GrantAuthenticated ||| getCustomGrant reg []) &&&
        GrantNone = GrantNone := by
      rw [or_and_distrib]
      have : getCustomGrant reg [] &&& GrantNone = 0 := by
        rw [← hcg, Nat.and_assoc]
        simp [show GrantSectionCustom &&& GrantNone = 0 from rfl]
      rw [this]
      decide
    rw [clean_of_not_none reg hbit0, hset]
    simp only [if_true]
    rw [or_and_distrib]
    have h1 : GrantAuthenticated &&& (GrantAuthenticated ||| GrantSectionCustom) =
        GrantAuthenticated := subset_or_right (Nat.and_self _)
    have h2 : getCustomGrant reg [] &&&
        (GrantAuthenticated ||| GrantSectionCustom) = getCustomGrant reg [] := by
      rw [Nat.or_comm]
      exact subset_or_right hcg
    rw [h1, h2]

set_option maxRecDepth 10000 in
/-- Containment reflexivity for every grant below `GrantAuthenticated`'s
bound that is confined to the `Authenticated` mask, checked exhaustively. -/
lemma reflexAux : ∀ g : Nat, g < 271 → g &&& 270 = g →
    containsGrant [] g (some (grantString [] g)) = none := by decide

lemma short_otpValidate (reg : Registry) : short reg GrantOTPValidate = "otp-validate" := rfl

lemma clean_otpValidate (reg : Registry) : clean reg GrantOTPValidate = GrantOTPValidate := by
  rw [clean_of_not_none reg (by decide)]
  cases hset : isCustomGrantsSet reg <;> simp <;> rfl

end Grants

/-! ### Claim theorems -/

namespace Grants

/-- C2: at any fixed registry state, `Clean(g)` equals `None` when `g` has
the `None` bit set, and otherwise equals `g` masked against `Authenticated`
unioned with the custom range only when custom grants are registered; the
reserved bits 24-31 are always cleared, `Clean(g ||| None) = None`, and the
result never contains a permission bit `g` did not contain. -/
theorem clean_spec (reg : Registry) (g : Grant) :
    (g &&& GrantNone = GrantNone → clean reg g = GrantNone) ∧
    (¬g &&& GrantNone = GrantNone →
      clean reg g =
        g &&& (if isCustomGrantsSet reg then GrantAuthenticated ||| GrantSectionCustom
               else GrantAuthenticated)) ∧
    clean reg (g ||| GrantNone) = GrantNone ∧
    clean reg g &&& GrantSectionReserved = 0 ∧
    clean reg g &&& g = clean reg g := by
  refine ⟨clean_of_none reg, clean_of_not_none reg, ?_, ?_, ?_⟩
  · apply clean_of_none
    apply Nat.eq_of_testBit_eq
    intro i
    simp only [Nat.testBit_and, Nat.testBit_or]
    cases g.testBit i <;> cases Nat.testBit GrantNone i <;> rfl
  · by_cases h : g &&& GrantNone = GrantNone
    · rw [clean_of_none reg h]
      rfl
    · rw [clean_of_not_none reg h]
      exact and_and_mask_zero (clean_filter_reserved reg) g
  · by_cases h : g &&& GrantNone = GrantNone
    · rw [clean_of_none reg h]
      rw [Nat.and_comm]
      exact h
    · rw [clean_of_not_none reg h]
      exact and_mask_absorb_left g _

/-- Witness for `clean_spec` at concrete inputs. -/
theorem clean_spec_witness :
    clean [] 0x21 = GrantNone ∧
    clean [] 0x0206 =
      0x0206 &&& (if isCustomGrantsSet ([] : Registry) then
        GrantAuthenticated ||| GrantSectionCustom else GrantAuthenticated) :=
  ⟨(clean_spec [] 0x21).1 (by decide), (clean_spec [] 0x0206).2.1 (by decide)⟩

/-- C3 counterexample: containment reflexivity fails as the claim states
it: for the grant `0x10000` (custom bit 16, with no custom grants
registered) the encoding drops the unassigned bit, so
`ContainsGrant(g, encoding of g)` fails with the grant-mismatch error
rather than succeeding. -/
theorem containsGrant_reflexive_cex :
    containsGrant [] 0x10000 (some (grantString [] 0x10000)) =
      some AuthzError.requestGrant := by decide

/-- C3 (amended): `ContainsGrant` succeeds exactly when the grant claim is
present, parses, and the parsed grant `r` satisfies `(r &&& g) = g`; a
missing claim yields the claim-missing error, a parse failure propagates
the parse error naming the offending segment, and a containment failure
yields the grant-mismatch error.  Reflexivity holds for the grants that are
fixed points of `Clean` (here at the empty custom registry): for such `g`,
`ContainsGrant(g, String(g))` succeeds. -/
theorem containsGrant_spec :
    (∀ (reg : Registry) (g : Grant),
      containsGrant reg g none = some AuthzError.grantDataType) ∧
    (∀ (reg : Registry) (g : Grant) (s msg : String),
      (toGrant reg s).2 = some msg →
      containsGrant reg g (some s) = some (AuthzError.unknownGrant msg)) ∧
    (∀ (reg : Registry) (g : Grant) (s : String) (r : Grant),
      toGrant reg s = (r, none) →
      (¬r &&& g = g → containsGrant reg g (some s) = some AuthzError.requestGrant) ∧
      (r &&& g = g → containsGrant reg g (some s) = none)) ∧
    (∀ g : Grant, clean [] g = g →
      containsGrant [] g (some (grantString [] g)) = none) := by
  refine ⟨fun reg g => rfl, ?_, ?_, ?_⟩
  · intro reg g s msg hmsg
    rcases hts : toGrant reg s with ⟨r, e⟩
    rw [hts] at hmsg
    simp at hmsg
    subst hmsg
    simp [containsGrant, hts]
  · intro reg g s r htg
    constructor <;> intro hc <;> simp [containsGrant, htg, hc]
  · intro g hfix
    by_cases h1 : g &&& GrantNone = GrantNone
    · rw [clean_of_none [] h1] at hfix
      rw [← hfix]
      decide
    · rw [clean_of_not_none [] h1,
        show isCustomGrantsSet ([] : Registry) = false from rfl] at hfix
      simp only [Bool.false_eq_true, if_false] at hfix
      have hlt : g < 271 := Nat.lt_succ_of_le (hfix ▸ Nat.and_le_right)
      exact reflexAux g hlt hfix

/-- Witness for `containsGrant_spec` at concrete inputs. -/
theorem containsGrant_spec_witness :
    containsGrant [] GrantSetOTP (some "abc") =
      some (AuthzError.unknownGrant "Unknown grant \x27abc\x27") ∧
    containsGrant [] GrantOTPQR (some "otp") = some AuthzError.requestGrant ∧
    containsGrant [] GrantSetOTP (some "otp") = none ∧
    containsGrant [] GrantSetOTP (some (grantString [] GrantSetOTP)) = none :=
  ⟨containsGrant_spec.2.1 [] GrantSetOTP "abc" _ (by decide),
   (containsGrant_spec.2.2.1 [] GrantOTPQR "otp" GrantSetOTP (by decide)).1 (by decide),
   (containsGrant_spec.2.2.1 [] GrantSetOTP "otp" GrantSetOTP (by decide)).2 (by decide),
   containsGrant_spec.2.2.2 GrantSetOTP (by decide)⟩

/-- C4 counterexample: the name `"unknown"` collides with the built-in
name of `GrantUnknown`, yet `SetCustomGrants` assigns it custom bit 16
(consuming a slot), because the skip test is whether `ToGrant` returns the
zero grant, and `"unknown"` parses to the zero grant without error. -/
theorem setCustomGrants_unknown_cex :
    setCustomGrants [] ["unknown"] = Except.ok [(0x10000, "unknown")] := rfl

/-- C4 (amended): `SetCustomGrants(names)` fails when more than 8 names
are given; on success it replaces the custom-range mapping, and a name is
skipped without consuming a bit slot exactly when `ToGrant` resolves it
to a nonzero grant at processing time (so built-in names other than
`"unknown"`, and duplicates of names already assigned in the same call,
are skipped, while `"unknown"` — which parses to the zero grant — is
assigned a bit); each remaining name gets the next custom bit densely from
bit 16 in input order, and 8 distinct unrecognized names occupy bits
16 through 23 in input order. -/
theorem setCustomGrants_spec :
    (∀ (reg : Registry) (names : List String), names.length > MaxCustomGrants →
      ∃ e, setCustomGrants reg names = Except.error e) ∧
    setCustomGrants [] ["g1", "g2", "g3", "g4", "g5", "g6", "g7", "g8"] =
      Except.ok [(0x10000, "g1"), (0x20000, "g2"), (0x40000, "g3"), (0x80000, "g4"),
        (0x100000, "g5"), (0x200000, "g6"), (0x400000, "g7"), (0x800000, "g8")] ∧
    setCustomGrants [] ["otp", "custom"] = Except.ok [(0x10000, "custom")] ∧
    setCustomGrants [] ["dup", "dup", "other"] =
      Except.ok [(0x10000, "dup"), (0x20000, "other")] := by
  refine ⟨?_, rfl, rfl, rfl⟩
  intro reg names h
  exact ⟨toString names.length ++ " exceeds max allowable length of "
      ++ toString MaxCustomGrants ++ "\n",
    by unfold setCustomGrants; rw [if_pos h]⟩

/-- Witness for `setCustomGrants_spec` on nine names. -/
theorem setCustomGrants_spec_witness :
    ∃ e, setCustomGrants [] ["n1", "n2", "n3", "n4", "n5", "n6", "n7", "n8", "n9"] =
      Except.error e :=
  setCustomGrants_spec.1 [] _ (by decide)

lemma toGrantGo_error (reg : Registry) (p : String) (rest : List String) :
    ∀ (pre : List String) (acc : Grant),
      (∀ q ∈ pre, (lookupFold reg (trimSpace q)).isSome = true) →
      lookupFold reg (trimSpace p) = none →
      toGrantGo reg acc (pre ++ p :: rest) =
        (GrantUnknown, some ("Unknown grant \x27" ++ trimSpace p ++ "\x27")) := by
  intro pre
  induction pre with
  | nil =>
    intro acc _ hnone
    simp [toGrantGo, hnone]
  | cons q t ih =>
    intro acc hpre hnone
    have hq := hpre q (List.mem_cons_self q t)
    rcases Option.isSome_iff_exists.mp hq with ⟨k, hk⟩
    simp only [List.cons_append, toGrantGo, hk]
    exact ih (acc ||| k) (fun x hx => hpre x (List.mem_cons_of_mem q hx)) hnone

/-- C5: `ToGrant` splits on commas, trims whitespace per segment, and
case-insensitively ORs the grants of recognized segments; at the first
unrecognized segment it stops, returns the zero grant, and the error names
exactly that segment; in particular `ToGrant("otp,abc,users-refresh")`
fails naming `"abc"`, while `ToGrant(" OTP ,otp-qr")` succeeds with
`SetOTP ||| OTPQR`. -/
theorem toGrant_spec :
    (∀ (reg : Registry) (s p : String) (pre rest : List String),
      splitComma s = pre ++ p :: rest →
      (∀ q ∈ pre, (lookupFold reg (trimSpace q)).isSome = true) →
      lookupFold reg (trimSpace p) = none →
      toGrant reg s =
        (GrantUnknown, some ("Unknown grant \x27" ++ trimSpace p ++ "\x27"))) ∧
    toGrant [] "otp,abc,users-refresh" =
      (GrantUnknown, some "Unknown grant \x27abc\x27") ∧
    toGrant [] " OTP ,otp-qr" = (GrantSetOTP ||| GrantOTPQR, none) := by
  refine ⟨?_, by decide, by decide⟩
  intro reg s p pre rest hsplit hpre hnone
  unfold toGrant
  rw [hsplit]
  exact toGrantGo_error reg p rest pre 0 hpre hnone

/-- Witness for `toGrant_spec` at a concrete unparsable input. -/
theorem toGrant_spec_witness :
    toGrant [] "otp,zzz" = (GrantUnknown, some "Unknown grant \x27zzz\x27") :=
  toGrant_spec.1 [] "otp,zzz" "zzz" ["otp"] [] (by decide) (by decide) (by decide)

/-- C8 counterexample: the built-in name `"otp-all"` parses successfully,
but `String()` of the result renders the constituent atomic names
(`"otp,otp-validate,otp-qr"`), and that comma-separated set does not
contain `"otp-all"`. -/
theorem roundTrip_otpAll_cex :
    (toGrant [] "otp-all").2 = none ∧
    grantString [] (toGrant [] "otp-all").1 = "otp,otp-validate,otp-qr" ∧
    (splitComma (grantString [] (toGrant [] "otp-all").1)).contains "otp-all"
      = false := by decide

/-- C8 (amended): for each of the six atomic built-in grant names
(`unknown`, `none`, `otp`, `otp-validate`, `otp-qr`, `users-refresh`),
parsing the name with `ToGrant` and rendering the result with `String()`
produces a comma-separated set of names containing that name; the two
aggregate short names `otp-all` and `authenticated` are instead expanded by
`String()` into their constituent atomic names. -/
theorem roundTrip_atomic_names :
    (splitComma (grantString [] (toGrant [] "unknown").1)).contains "unknown" = true ∧
    (splitComma (grantString [] (toGrant [] "none").1)).contains "none" = true ∧
    (splitComma (grantString [] (toGrant [] "otp").1)).contains "otp" = true ∧
    (splitComma (grantString [] (toGrant [] "otp-validate").1)).contains
      "otp-validate" = true ∧
    (splitComma (grantString [] (toGrant [] "otp-qr").1)).contains "otp-qr" = true ∧
    (splitComma (grantString [] (toGrant [] "users-refresh").1)).contains
      "users-refresh" = true := by decide

lemma gcg_subset_fold (fs : List String) :
    ∀ (l : List (Grant × String)) (accf acca : Grant),
      accf &&& acca = accf →
      (List.foldl (gcgStep fs) accf l) &&& (List.foldl (gcgStep []) acca l) =
        List.foldl (gcgStep fs) accf l := by
  intro l
  induction l with
  | nil => intro accf acca h; simpa using h
  | cons kv t ih =>
    intro accf acca h
    simp only [List.foldl_cons]
    apply ih
    by_cases hc : kv.1 &&& GrantSectionCustom > 0
    · by_cases hf : fs.length > 0
      · by_cases hm : (fs.any fun g => eqFold kv.2 g) = true
        · simp only [gcgStep, hc, hf, hm, if_true, if_pos]
          exact subset_or_or h
        · simp only [gcgStep, hc, hf, hm, if_true, if_pos, if_false,
            Bool.false_eq_true]
          exact subset_or_right h
      · simp only [gcgStep, hc, hf, if_pos, if_false, List.length_nil,
          Nat.lt_irrefl]
        exact subset_or_or h
    · simp only [gcgStep, hc, if_false]
      exact h

/-- C9: `GetCustomGrant` with a filter returns a sub-grant of the
no-filter union for every registry state, and after
`SetCustomGrants(["this","that","those"])` (which assigns bits 16, 17, 18),
`GetCustomGrant("this","those")` is bit 16 | bit 18 and `Short()` of that
grant is `"this,those"`. -/
theorem getCustomGrant_spec :
    (∀ (reg : Registry) (fs : List String),
      getCustomGrant reg fs &&& getCustomGrant reg [] = getCustomGrant reg fs) ∧
    setCustomGrants [] ["this", "that", "those"] =
      Except.ok [(0x10000, "this"), (0x20000, "that"), (0x40000, "those")] ∧
    getCustomGrant [(0x10000, "this"), (0x20000, "that"), (0x40000, "those")]
      ["this", "those"] = (0x10000 ||| 0x40000) ∧
    short [(0x10000, "this"), (0x20000, "that"), (0x40000, "those")]
      (0x10000 ||| 0x40000) = "this,those" := by
  refine ⟨?_, rfl, by decide, rfl⟩
  intro reg fs
  unfold getCustomGrant
  exact gcg_subset_fold fs _ 0 0 rfl

/-- C10: when the required grant is the zero value (`Unknown`),
`ContainsGrant` never fails with the grant-mismatch error, and every claim
string that parses successfully satisfies containment, because
`(r &&& 0) = 0` for every parsed grant `r`. -/
theorem containsGrant_zero_required (reg : Registry) (claimVal : Option String) :
    containsGrant reg GrantUnknown claimVal ≠ some AuthzError.requestGrant ∧
    (∀ s, claimVal = some s → (toGrant reg s).2 = none →
      containsGrant reg GrantUnknown claimVal = none) := by
  constructor
  · cases claimVal with
    | none => simp [containsGrant]
    | some s =>
      rcases hts : toGrant reg s with ⟨r, e⟩
      cases e with
      | none =>
        have hz : (r &&& GrantUnknown) = GrantUnknown := Nat.and_zero r
        simp [containsGrant, hts, hz]
      | some msg => simp [containsGrant, hts]
  · intro s hs hparse
    subst hs
    rcases hts : toGrant reg s with ⟨r, e⟩
    rw [hts] at hparse
    simp at hparse
    subst hparse
    have hz : (r &&& GrantUnknown) = GrantUnknown := Nat.and_zero r
    simp [containsGrant, hts, hz]

/-- Witness for `containsGrant_zero_required`. -/
theorem containsGrant_zero_required_witness :
    containsGrant [] GrantUnknown (some "otp") = none ∧
    containsGrant [] GrantUnknown (some "bogus") ≠ some AuthzError.requestGrant :=
  ⟨(containsGrant_zero_required [] (some "otp")).2 "otp" rfl (by decide),
   (containsGrant_zero_required [] (some "bogus")).1⟩

/-- C6: `Clean` is idempotent at any fixed registry state. -/
theorem clean_idempotent (reg : Registry) (g : Grant) :
    clean reg (clean reg g) = clean reg g := by
  by_cases h : g &&& GrantNone = GrantNone
  · rw [clean_of_none reg h]
    exact clean_of_none reg rfl
  · rw [clean_of_not_none reg h]
    have hfil := clean_filter_none reg
    have hnone : ¬(g &&& (if isCustomGrantsSet reg then
        GrantAuthenticated ||| GrantSectionCustom else GrantAuthenticated)) &&&
        GrantNone = GrantNone := by
      rw [and_and_mask_zero hfil g]
      decide
    rw [clean_of_not_none reg hnone]
    exact and_mask_absorb g _

end Grants

namespace Controller

open Grants

lemma grantString_usersRefresh (reg : Registry) :
    grantString reg GrantUsersRefresh = "users-refresh" := rfl

/-- C1: for every user, registry state and `TokenOptions`, when
`SkipRefresh` is unset the refresh token produced by `GenerateTokens`
carries a grant claim of exactly `"users-refresh"` (the name of
`UsersRefresh`), regardless of the caller-supplied or effective
access-token grant; when `SkipRefresh` is set, no refresh token is
produced. -/
theorem generateTokens_refresh_grant (reg : Registry) (user : User)
    (o : TokenOptions) (now : Int) :
    (o.skipRefresh = false →
      (generateTokens reg user (some o) now).2 =
        some { userId := user.userId,
               exp := now + (if o.refreshTTL > 0 then o.refreshTTL
                             else RefreshTokenExpiration),
               grant := "users-refresh" }) ∧
    (o.skipRefresh = true → (generateTokens reg user (some o) now).2 = none) := by
  constructor
  · intro h
    simp [generateTokens, h, grantString_usersRefresh]
  · intro h
    simp [generateTokens, h]

/-- Witness for `generateTokens_refresh_grant`. -/
theorem generateTokens_refresh_grant_witness :
    (generateTokens []
      { email := "e", username := "u", userId := "id", userType := "t",
        totpEnabled := false }
      (some { grant := GrantFull, ttl := 0, refreshTTL := 0, skipRefresh := false })
      0).2 =
      some { userId := "id",
             exp := 0 + (if (0 : Int) > 0 then (0 : Int) else RefreshTokenExpiration),
             grant := "users-refresh" } ∧
    (generateTokens []
      { email := "e", username := "u", userId := "id", userType := "t",
        totpEnabled := false }
      (some { grant := GrantFull, ttl := 0, refreshTTL := 0, skipRefresh := true })
      0).2 = none :=
  ⟨(generateTokens_refresh_grant [] _ _ 0).1 rfl,
   (generateTokens_refresh_grant [] _ _ 0).2 rfl⟩

/-- C7: on a well-formed registry, `Login` for a user with
`TotpEnabled = true` issues an access token whose grant claim is the
encoding of exactly `OTPValidate`, with the 5-minute transactional TTL and
no refresh token; for `TotpEnabled = false` the access token carries
`Authenticated` unioned with the active custom grants with the 1-hour
default TTL, and a refresh token scoped to `UsersRefresh` is produced. -/
theorem login_totp_tokens (reg : Registry) (user : User) (now : Int)
    (hv : ValidRegistry reg) :
    (user.totpEnabled = true →
      (loginTokens reg user now).1.grant = "otp-validate" ∧
      (loginTokens reg user now).1.exp = now + TransactionTokenExpiration ∧
      (loginTokens reg user now).2 = none) ∧
    (user.totpEnabled = false →
      (loginTokens reg user now).1.grant =
        short reg (GrantAuthenticated ||| getCustomGrant reg []) ∧
      (loginTokens reg user now).1.exp = now + AccessTokenExpiration ∧
      (loginTokens reg user now).2 =
        some { userId := user.userId, exp := now + RefreshTokenExpiration,
               grant := "users-refresh" }) := by
  constructor
  · intro h
    refine ⟨?_, ?_, ?_⟩
    · simp [loginTokens, generateTokens, h,
        show (GrantOTPValidate != GrantUnknown) = true from rfl]
      rw [clean_otpValidate reg, short_otpValidate reg]
    · simp [loginTokens, generateTokens, h, TransactionTokenExpiration]
    · simp [loginTokens, generateTokens, h]
  · intro h
    refine ⟨?_, ?_, ?_⟩
    · simp [loginTokens, generateTokens, h,
        show (GrantUnknown != GrantUnknown) = false from rfl]
      rw [clean_default_grant reg hv]
    · simp [loginTokens, generateTokens, h, AccessTokenExpiration]
    · simp [loginTokens, generateTokens, h, grantString_usersRefresh,
        RefreshTokenExpiration]

/-- Witness for `login_totp_tokens` on the empty registry. -/
theorem login_totp_tokens_witness :
    (loginTokens []
      { email := "e", username := "u", userId := "id", userType := "t",
        totpEnabled := true } 0).1.grant = "otp-validate" ∧
    (loginTokens []
      { email := "e", username := "u", userId := "id", userType := "t",
        totpEnabled := false } 0).2 =
      some { userId := "id", exp := 0 + RefreshTokenExpiration,
             grant := "users-refresh" } :=
  ⟨((login_totp_tokens [] _ 0 (by intro kv hkv; simp at hkv)).1 rfl).1,
   ((login_totp_tokens [] _ 0 (by intro kv hkv; simp at hkv)).2 rfl).2.2⟩

end Controller

end SimpleAuth
